import Mathlib

/-!
Shallow embedding of the `ai_kit` repository (packages/python,
packages/python-inference, packages/python-local) and proofs about it.

Python integers are modelled as `Int` (or `Nat` where the source value is
provably non-negative), Python floats in the retry-delay arithmetic as `ℚ`
(the source only adds, multiplies, halves and compares, so rationals are
exact), Python `bytes` as `List Nat` (each entry < 256), Python `str` as
`String`, and Python dictionaries as association lists or functions to
`Option`.  Fallible code returns `Except`.
-/

namespace AiKit

/-- Modelled from the spec: `types.py` is not part of the sources; the spec
describes stream chunks as text deltas, tool calls, and a terminal
message-end marker.  The dataclass has a discriminating `type` string and
optional slots, mirroring the constructions in `build_stream_chunks`. -/
structure StreamChunk (Tool Usage Finish : Type) where
  type : String
  textDelta : Option String := none
  call : Option Tool := none
  usage : Option Usage := none
  finishReason : Option Finish := none
  deriving Repr, DecidableEq

/-- Modelled from the spec: `types.py` is not part of the sources; the spec
describes the generate output as normalized text plus tool calls, usage and
finish-reason metadata.  A missing (`None`) text is modelled as `""`: both
are falsy in the source's `if output.text:` guard, and a missing tool-call
list as `[]`, falsy like `None` in `if output.toolCalls:`. -/
structure GenerateOutput (Tool Usage Finish : Type) where
  text : String
  toolCalls : List Tool
  usage : Option Usage := none
  finishReason : Option Finish := none
  deriving Repr, DecidableEq

/-- Fuel-indexed core of `_chunk_text`'s slice comprehension
`[text[index : index + chunk_size] for index in range(0, len(text), chunk_size)]`:
successive slices of `c` characters.  Invoked with `fuel = s.length`, which
suffices for `c ≥ 1`. -/
def chunkTextAux (c : Nat) : Nat → List Char → List (List Char)
  | _, [] => []
  | 0, s => [s]
  | fuel + 1, s => s.take c :: chunkTextAux c fuel (s.drop c)

/-- `_chunk_text` from `packages/python/src/ai_kit/testing.py`. -/
def chunk_text (text : String) (chunk_size : Int) : List String :=
  if text = "" then []
  else if chunk_size ≤ 0 then [text]
  else (chunkTextAux chunk_size.toNat text.length text.data).map String.mk

/-- `build_stream_chunks` from `packages/python/src/ai_kit/testing.py`. -/
def build_stream_chunks {Tool Usage Finish : Type}
    (output : GenerateOutput Tool Usage Finish) (chunk_size : Int) :
    List (StreamChunk Tool Usage Finish) :=
  (if output.text ≠ "" then
    (chunk_text output.text chunk_size).map
      (fun part => ({ type := "delta", textDelta := some part } :
        StreamChunk Tool Usage Finish))
  else [])
  ++ (if output.toolCalls.isEmpty then []
      else output.toolCalls.map
        (fun call => ({ type := "tool_call", call := some call } :
          StreamChunk Tool Usage Finish)))
  ++ [{ type := "message_end", usage := output.usage,
        finishReason := output.finishReason }]

/-! ### JSON payload model and canonical serialization (`fixture_key`)

`types.py` is not part of the sources, so the request payload shape is
modelled from the spec: a request carries a provider identifier, a model
identifier and operation-specific payload fields (prompt, references,
parameters mapping).  Payloads are modelled as JSON dictionaries of bounded
nesting depth (atoms, arrays of atoms, and one level of nested mapping),
which covers the request shapes the spec describes. -/

/-- Modelled from the spec: an atomic JSON value of a request payload. -/
inductive JsonAtom
  | null
  | bool (b : Bool)
  | num (n : Int)
  | str (s : String)
  deriving Repr, DecidableEq

/-- Modelled from the spec: a JSON value of a request payload field — an
atom, an array of atoms, or a nested mapping of atoms. -/
inductive JsonValue
  | atom (a : JsonAtom)
  | arr (items : List JsonAtom)
  | obj (fields : List (String × JsonAtom))
  deriving Repr, DecidableEq

/-- Modelled from the spec: a fixture request input (`GenerateInput`,
`ImageGenerateInput` or `MeshGenerateInput` from the missing `types.py`)
carries a provider identifier, a model identifier, and the JSON-serializable
payload that `as_json_dict` returns for it. -/
structure RequestInput where
  provider : String
  model : String
  payload : List (String × JsonValue)
  deriving Repr, DecidableEq

/-- Modelled from the spec: `as_json_dict` (missing `types.py`) returns the
JSON-serializable dictionary of the request. -/
def as_json_dict (input : RequestInput) : List (String × JsonValue) :=
  input.payload

/-- `FixtureKeyInput` from `packages/python/src/ai_kit/testing.py`. -/
structure FixtureKeyInput where
  type : String
  input : RequestInput
  deriving Repr, DecidableEq

/-- One hex digit, lower case, as produced by Python's serializers. -/
def hexDigit (n : Nat) : Char :=
  "0123456789abcdef".data.getD n '0'

/-- Four lower-case hex digits of `n < 2^16` (the `\uXXXX` payload). -/
def hex4 (n : Nat) : List Char :=
  [hexDigit ((n >>> 12) % 16), hexDigit ((n >>> 8) % 16),
   hexDigit ((n >>> 4) % 16), hexDigit (n % 16)]

/-- `\uXXXX` escape of a code point, with a surrogate pair above `0xFFFF`,
as `json.dumps` (default `ensure_ascii=True`) produces. -/
def uEscape (n : Nat) : List Char :=
  if n < 65536 then '\\' :: 'u' :: hex4 n
  else
    let m := n - 65536
    ('\\' :: 'u' :: hex4 (55296 + m / 1024)) ++ ('\\' :: 'u' :: hex4 (56320 + m % 1024))

/-- JSON escaping of one character, following `json.dumps` with its default
`ensure_ascii=True`: short escapes for the common control characters, `\uXXXX`
for the other control characters and for everything outside printable
ASCII. -/
def jsonEscapeChar (c : Char) : List Char :=
  if c = '"' then ['\\', '"']
  else if c = '\\' then ['\\', '\\']
  else if c = '\n' then ['\\', 'n']
  else if c = '\t' then ['\\', 't']
  else if c = '\r' then ['\\', 'r']
  else if c.toNat = 8 then ['\\', 'b']
  else if c.toNat = 12 then ['\\', 'f']
  else if c.toNat < 32 ∨ 126 < c.toNat then uEscape c.toNat
  else [c]

/-- A JSON string literal: quoted and escaped, as `json.dumps` emits it. -/
def quoteStr (s : String) : String :=
  String.mk ('"' :: (s.data.map jsonEscapeChar).flatten ++ ['"'])

/-- Comma-separated concatenation, matching the compact `(",", ":")`
separators `fixture_key` passes to `json.dumps`. -/
def commaSep : List String → String
  | [] => ""
  | [x] => x
  | x :: y :: xs => x ++ "," ++ commaSep (y :: xs)

/-- Python's `str` comparison: lexicographic by code point. -/
def strLtb : List Char → List Char → Bool
  | [], [] => false
  | [], _ :: _ => true
  | _ :: _, [] => false
  | a :: as, b :: bs =>
    if a.toNat < b.toNat then true
    else if b.toNat < a.toNat then false
    else strLtb as bs

/-- Stable insertion of one keyed field into a key-sorted field list (keeps
existing fields with strictly smaller keys in front, inserts before equal
keys seen later, mirroring Python's stable `sorted`). -/
def insertField {α : Type} (kv : String × α) :
    List (String × α) → List (String × α)
  | [] => [kv]
  | x :: xs =>
    if strLtb x.1.data kv.1.data then x :: insertField kv xs
    else kv :: x :: xs

/-- Key-sorting of the fields of a JSON object, as `sort_keys=True` does. -/
def sortFields {α : Type} : List (String × α) → List (String × α)
  | [] => []
  | kv :: rest => insertField kv (sortFields rest)

/-- Serialization of a payload atom, as `json.dumps` emits it. -/
def dumpsAtom : JsonAtom → String
  | .null => "null"
  | .bool b => if b then "true" else "false"
  | .num n => toString n
  | .str s => quoteStr s

/-- Serialization of a payload value with sorted keys and compact
separators, as `json.dumps(..., sort_keys=True, separators=(",", ":"))`
emits it. -/
def dumpsValue : JsonValue → String
  | .atom a => dumpsAtom a
  | .arr items => "[" ++ commaSep (items.map dumpsAtom) ++ "]"
  | .obj fields =>
    "\x7b" ++ commaSep ((sortFields fields).map
      (fun kv => quoteStr kv.1 ++ ":" ++ dumpsAtom kv.2)) ++ "\x7d"

/-- Serialization of a payload dictionary with sorted keys and compact
separators — the canonical JSON form of `as_json_dict(input)` inside
`fixture_key`'s `json.dumps` call. -/
def dumpsDict (payload : List (String × JsonValue)) : String :=
  "\x7b" ++ commaSep ((sortFields payload).map
    (fun kv => quoteStr kv.1 ++ ":" ++ dumpsValue kv.2)) ++ "\x7d"

/-! ### SHA-256 over byte lists (`hashlib.sha256`) -/

/-- `2^32`, the word modulus of SHA-256. -/
def MOD32 : Nat := 4294967296

/-- Right rotation of a 32-bit word. -/
def rotr32 (n x : Nat) : Nat :=
  Nat.lor (x >>> n) ((x <<< (32 - n)) % MOD32)

/-- SHA-256 big sigma 0. -/
def bigSigma0 (x : Nat) : Nat :=
  Nat.xor (rotr32 2 x) (Nat.xor (rotr32 13 x) (rotr32 22 x))

/-- SHA-256 big sigma 1. -/
def bigSigma1 (x : Nat) : Nat :=
  Nat.xor (rotr32 6 x) (Nat.xor (rotr32 11 x) (rotr32 25 x))

/-- SHA-256 small sigma 0. -/
def smallSigma0 (x : Nat) : Nat :=
  Nat.xor (rotr32 7 x) (Nat.xor (rotr32 18 x) (x >>> 3))

/-- SHA-256 small sigma 1. -/
def smallSigma1 (x : Nat) : Nat :=
  Nat.xor (rotr32 17 x) (Nat.xor (rotr32 19 x) (x >>> 10))

/-- SHA-256 choose. -/
def chFn (x y z : Nat) : Nat :=
  Nat.xor (Nat.land x y) (Nat.land (Nat.xor x 4294967295) z)

/-- SHA-256 majority. -/
def majFn (x y z : Nat) : Nat :=
  Nat.xor (Nat.land x y) (Nat.xor (Nat.land x z) (Nat.land y z))

/-- The 64 SHA-256 round constants (FIPS 180-4 §4.2.2), in decimal. -/
def sha256K : List Nat :=
  [1116352408, 1899447441, 3049323471, 3921009573,
   961987163, 1508970993, 2453635748, 2870763221,
   3624381080, 310598401, 607225278, 1426881987,
   1925078388, 2162078206, 2614888103, 3248222580,
   3835390401, 4022224774, 264347078, 604807628,
   770255983, 1249150122, 1555081692, 1996064986,
   2554220882, 2821834349, 2952996808, 3210313671,
   3336571891, 3584528711, 113926993, 338241895,
   666307205, 773529912, 1294757372, 1396182291,
   1695183700, 1986661051, 2177026350, 2456956037,
   2730485921, 2820302411, 3259730800, 3345764771,
   3516065817, 3600352804, 4094571909, 275423344,
   430227734, 506948616, 659060556, 883997877,
   958139571, 1322822218, 1537002063, 1747873779,
   1955562222, 2024104815, 2227730452, 2361852424,
   2428436474, 2756734187, 3204031479, 3329325298]

/-- The SHA-256 initial hash value (FIPS 180-4 §5.3.3), in decimal. -/
def sha256H0 : List Nat :=
  [1779033703, 3144134277, 1013904242, 2773480762,
   1359893119, 2600822924, 528734635, 1541459225]

/-- One SHA-256 working state. -/
structure Sha256State where
  a : Nat
  b : Nat
  c : Nat
  d : Nat
  e : Nat
  f : Nat
  g : Nat
  h : Nat

/-- One SHA-256 compression round with round constant and schedule word. -/
def sha256Round (st : Sha256State) (kw : Nat × Nat) : Sha256State :=
  let t1 := (st.h + bigSigma1 st.e + chFn st.e st.f st.g + kw.1 + kw.2) % MOD32
  let t2 := (bigSigma0 st.a + majFn st.a st.b st.c) % MOD32
  { a := (t1 + t2) % MOD32, b := st.a, c := st.b, d := st.c,
    e := (st.d + t1) % MOD32, f := st.e, g := st.f, h := st.g }

/-- Message-schedule extension: append `n` further schedule words. -/
def sha256Extend : Nat → List Nat → List Nat
  | 0, ws => ws
  | n + 1, ws =>
    let l := ws.length
    let w := (smallSigma1 (ws.getD (l - 2) 0) + ws.getD (l - 7) 0
      + smallSigma0 (ws.getD (l - 15) 0) + ws.getD (l - 16) 0) % MOD32
    sha256Extend n (ws ++ [w])

/-- Compression of one 16-word block into the running hash. -/
def sha256Block (hs : List Nat) (ws16 : List Nat) : List Nat :=
  let ws := sha256Extend 48 ws16
  let st0 : Sha256State :=
    { a := hs.getD 0 0, b := hs.getD 1 0, c := hs.getD 2 0, d := hs.getD 3 0,
      e := hs.getD 4 0, f := hs.getD 5 0, g := hs.getD 6 0, h := hs.getD 7 0 }
  let st := (sha256K.zip ws).foldl sha256Round st0
  [(hs.getD 0 0 + st.a) % MOD32, (hs.getD 1 0 + st.b) % MOD32,
   (hs.getD 2 0 + st.c) % MOD32, (hs.getD 3 0 + st.d) % MOD32,
   (hs.getD 4 0 + st.e) % MOD32, (hs.getD 5 0 + st.f) % MOD32,
   (hs.getD 6 0 + st.g) % MOD32, (hs.getD 7 0 + st.h) % MOD32]

/-- Big-endian 8-byte encoding of the bit length. -/
def beBytes8 (n : Nat) : List Nat :=
  [(n >>> 56) % 256, (n >>> 48) % 256, (n >>> 40) % 256, (n >>> 32) % 256,
   (n >>> 24) % 256, (n >>> 16) % 256, (n >>> 8) % 256, n % 256]

/-- SHA-256 padding: `0x80`, zeros to 56 mod 64, 8-byte bit length. -/
def sha256Pad (msg : List Nat) : List Nat :=
  let L := msg.length
  let padLen := (64 + 56 - (L + 1) % 64) % 64
  msg ++ [128] ++ List.replicate padLen 0 ++ beBytes8 (8 * L)

/-- Big-endian packing of bytes into 32-bit words. -/
def bytesToWords : List Nat → List Nat
  | b0 :: b1 :: b2 :: b3 :: rest =>
    (b0 * 16777216 + b1 * 65536 + b2 * 256 + b3) :: bytesToWords rest
  | _ => []

/-- Fuel-indexed chunking of the word list into 16-word blocks. -/
def wordBlocks : Nat → List Nat → List (List Nat)
  | _, [] => []
  | 0, _ => []
  | n + 1, ws => ws.take 16 :: wordBlocks n (ws.drop 16)

/-- The eight 32-bit words of the SHA-256 digest of a byte list. -/
def sha256Words (msg : List Nat) : List Nat :=
  let ws := bytesToWords (sha256Pad msg)
  (wordBlocks ws.length ws).foldl sha256Block sha256H0

/-- Eight lower-case hex digits of one 32-bit word. -/
def wordHex (w : Nat) : List Char :=
  [hexDigit ((w >>> 28) % 16), hexDigit ((w >>> 24) % 16),
   hexDigit ((w >>> 20) % 16), hexDigit ((w >>> 16) % 16),
   hexDigit ((w >>> 12) % 16), hexDigit ((w >>> 8) % 16),
   hexDigit ((w >>> 4) % 16), hexDigit (w % 16)]

/-- `hashlib.sha256(...).hexdigest()`: the 64-character lower-case hex
digest. -/
def sha256Hex (msg : List Nat) : String :=
  String.mk ((sha256Words msg).map wordHex).flatten

/-- UTF-8 encoding of one character (`str.encode("utf-8")`). -/
def utf8Bytes (c : Char) : List Nat :=
  let n := c.toNat
  if n < 128 then [n]
  else if n < 2048 then [192 + n / 64, 128 + n % 64]
  else if n < 65536 then [224 + n / 4096, 128 + (n / 64) % 64, 128 + n % 64]
  else [240 + n / 262144, 128 + (n / 4096) % 64, 128 + (n / 64) % 64,
        128 + n % 64]

/-- UTF-8 encoding of a string (`str.encode("utf-8")`). -/
def strBytes (s : String) : List Nat :=
  (s.data.map utf8Bytes).flatten

/-- `fixture_key` from `packages/python/src/ai_kit/testing.py`.  The source
serializes the dictionary
`{"type": ..., "provider": ..., "model": ..., "input": as_json_dict(...)}`
with `sort_keys=True` and separators `(",", ":")`; under `sort_keys` the
four keys are emitted in the order `input`, `model`, `provider`, `type`,
which the concatenation below spells out. -/
def fixture_key (input : FixtureKeyInput) : String :=
  let encoded :=
    "\x7b\"input\":" ++ dumpsDict (as_json_dict input.input)
    ++ ",\"model\":" ++ quoteStr input.input.model
    ++ ",\"provider\":" ++ quoteStr input.input.provider
    ++ ",\"type\":" ++ quoteStr input.type
    ++ "\x7d"
  let digest := String.mk (((sha256Hex (strBytes encoded)).data).take 12)
  input.type ++ ":" ++ input.input.provider ++ ":" ++ input.input.model
    ++ ":" ++ digest

/-- The canonical JSON serialization of a request's payload (sorted keys,
compact separators) — the normal form the spec's key-determinism property
quantifies over. -/
def canonicalPayload (input : RequestInput) : String :=
  dumpsDict (as_json_dict input)

/-! ### String helpers shared by the client embeddings -/

/-- Python `str.lower()` (ASCII range; the source only compares against
ASCII needles). -/
def lowerStr (s : String) : String :=
  String.mk (s.data.map Char.toLower)

/-- Whether the first list is a leading segment of the second. -/
def leadsList : List Char → List Char → Bool
  | [], _ => true
  | _ :: _, [] => false
  | a :: as, b :: bs => a = b && leadsList as bs

/-- Python `needle in haystack` on strings: substring containment. -/
def containsSub (haystack needle : List Char) : Bool :=
  match haystack with
  | [] => needle.isEmpty
  | _ :: t => leadsList needle haystack || containsSub t needle

/-- Python `str.startswith`. -/
def startsWithStr (s pre : String) : Bool :=
  leadsList pre.data s.data

/-- Python whitespace for `str.strip()` (ASCII range). -/
def isPySpace (c : Char) : Bool :=
  c = ' ' || c = '\t' || c = '\n' || c = '\r' || c.toNat = 11 || c.toNat = 12

/-- Python `str.strip()`: drop whitespace from both ends. -/
def pyStrip (s : String) : String :=
  String.mk (((s.data.dropWhile isPySpace).reverse.dropWhile isPySpace).reverse)

/-! ### Replicate client retry policy
(`packages/python-inference/src/ai_kit/clients/replicate_client.py`) -/

/-- A Python exception as the Replicate retry logic observes it: the
optional `status` and `status_code` attributes and `str(exc)`. -/
structure PyException where
  status : Option Int := none
  status_code : Option Int := none
  message : String
  deriving Repr, DecidableEq

/-- Python `a or b` on optional integers: `None` and `0` are falsy. -/
def pyOrInt (a b : Option Int) : Option Int :=
  match a with
  | some v => if v = 0 then b else some v
  | none => b

/-- `ReplicateClient` configuration after `__init__`'s clamping:
`max_retries = max(0, max_retries)`, `base_delay_s = max(0.1, base_delay_s)`,
`max_delay_s = max(base_delay_s, max_delay_s)`. -/
structure ReplicateClient where
  use_file_output : Bool
  max_retries : Nat
  base_delay_s : ℚ
  max_delay_s : ℚ

/-- `ReplicateClient.__init__` from the source: clamps the retry
configuration. -/
def ReplicateClient.init (use_file_output : Bool) (max_retries : Int)
    (base_delay_s max_delay_s : ℚ) : ReplicateClient :=
  { use_file_output,
    max_retries := (max 0 max_retries).toNat,
    base_delay_s := max (1/10) base_delay_s,
    max_delay_s := max (max (1/10) base_delay_s) max_delay_s }

/-- The provider-specific part of `ReplicateClient._should_retry` after the
attempt-ceiling check: HTTP 429 or a throttling message. -/
def ReplicateClient.retryPred (exc : PyException) : Bool :=
  let status := pyOrInt exc.status exc.status_code
  if status = some 429 then true
  else
    let message := (lowerStr exc.message).data
    containsSub message "429".data || containsSub message "throttl".data
      || containsSub message "rate limit".data

/-- `ReplicateClient._should_retry` from the source. -/
def ReplicateClient.should_retry (c : ReplicateClient) (exc : PyException)
    (attempt : Nat) : Bool :=
  if c.max_retries ≤ attempt then false
  else ReplicateClient.retryPred exc

/-- Case-insensitive literal match of a lowercase pattern fragment at the
head of the input, returning the rest on success. -/
def matchCI : List Char → List Char → Option (List Char)
  | [], cs => some cs
  | _ :: _, [] => none
  | p :: ps, c :: cs => if c.toLower = p then matchCI ps cs else none

/-- Maximal run of literal `d` (case-insensitive) at the head of the input:
its length and the rest.  This is what `d+` in the source's pattern matches,
because the `r"...(\\d+)s"` raw string doubles the backslash, making `\\`
a literal backslash and `d+` a run of the letter `d`. -/
def dRun : List Char → Nat × List Char
  | [] => (0, [])
  | c :: rest =>
    if c.toLower = 'd' then
      let (n, r) := dRun rest
      (n + 1, r)
    else (0, c :: rest)

/-- After `reset(?:s)? in `: optional `~`, then the group `(\\d+)` — a
literal backslash followed by one or more letters `d` — then a literal `s`.
Returns the captured group.  The maximal `d`-run needs no backtracking:
a shorter run would leave a `d` where the final `s` is required. -/
def matchTail (cs : List Char) : Option String :=
  let cs1 := match cs with
    | '~' :: r => r
    | _ => cs
  match cs1 with
  | '\\' :: rest =>
    let (n, r) := dRun rest
    if 1 ≤ n then
      match r with
      | c :: _ => if c.toLower = 's' then some (String.mk ('\\' :: rest.take n))
                  else none
      | [] => none
    else none
  | _ => none

/-- Match of the source's pattern `reset(?:s)? in ~?(\\d+)s` anchored at
the current position (`(?:s)?` greedy: the `s`-consuming alternative is
tried first). -/
def matchHintAt (cs : List Char) : Option String :=
  match matchCI "resets in ".data cs with
  | some r => matchTail r
  | none =>
    match matchCI "reset in ".data cs with
    | some r => matchTail r
    | none => none

/-- `re.search` of the source's pattern: leftmost match over all start
positions. -/
def searchHint : List Char → Option String
  | [] => none
  | c :: rest =>
    match matchHintAt (c :: rest) with
    | some g => some g
    | none => searchHint rest

/-- Value of one decimal digit. -/
def digitVal (c : Char) : Option Nat :=
  if '0' ≤ c ∧ c ≤ '9' then some (c.toNat - 48) else none

/-- Leading decimal-digit run: accumulated value, digit count, rest. -/
def digitsVal : List Char → Nat → Nat → Nat × Nat × List Char
  | [], acc, cnt => (acc, cnt, [])
  | c :: rest, acc, cnt =>
    match digitVal c with
    | some d => digitsVal rest (acc * 10 + d) (cnt + 1)
    | none => (acc, cnt, c :: rest)

/-- Python `float(str)` restricted to the simple decimal forms
`[sign] digits [. digits]` (no exponent, no inf/nan, no surrounding
whitespace — none of which the captured group can contain): `none` models
the `ValueError` the source would not catch.  The captured group always
begins with a backslash, so this parser always rejects it. -/
def pyFloat (cs : List Char) : Option ℚ :=
  let (sign, cs1) : ℚ × List Char := match cs with
    | '-' :: r => (-1, r)
    | '+' :: r => (1, r)
    | r => (1, r)
  let (ip, icnt, cs2) := digitsVal cs1 0 0
  if icnt = 0 then none
  else
    match cs2 with
    | [] => some (sign * ip)
    | '.' :: r =>
      let (fp, fcnt, cs3) := digitsVal r 0 0
      if cs3 = [] then some (sign * (ip + (fp : ℚ) / (10 : ℚ) ^ fcnt))
      else none
    | _ => none

/-- CPython's `random.uniform(a, b)`: `a + (b - a) * random()`, with the
`random()` draw — a value in `[0, 1)` — passed in as `rand`. -/
def pyUniform (a b rand : ℚ) : ℚ :=
  a + (b - a) * rand

/-- `ReplicateClient._retry_delay` from the source.  The exponential branch
adds `random.uniform(0, min(1.0, base * 0.1))` jitter; the underlying
`random()` draw is passed in as `rand`.  `Except.error ()` models the
uncaught `ValueError` that `float(match.group(1))` raises whenever the
pattern does match (the group always starts with a literal backslash). -/
def ReplicateClient.retry_delay (c : ReplicateClient) (exc : PyException)
    (attempt : Nat) (rand : ℚ) : Except Unit ℚ :=
  match searchHint exc.message.data with
  | some g =>
    match pyFloat g.data with
    | some n => .ok (min c.max_delay_s (n + 1))
    | none => .error ()
  | none =>
    let base := min c.max_delay_s (c.base_delay_s * 2 ^ attempt)
    let jitter := pyUniform 0 (min 1 (base * (1 / 10))) rand
    .ok (base + jitter)

/-- The retry loop of `ReplicateClient.run`, one probe outcome per attempt
index.  Returns the final outcome and the number of sleeps taken.  Invoked
with `fuel = max_retries - attempt`; the fuel-exhausted arm is unreachable
because `_should_retry` is false once `attempt ≥ max_retries`. -/
def ReplicateClient.runAux {α : Type} (c : ReplicateClient)
    (results : Nat → Except PyException α) :
    Nat → Nat → Except PyException α × Nat
  | attempt, fuel =>
    match results attempt with
    | .ok a => (.ok a, 0)
    | .error e =>
      if c.should_retry e attempt then
        match fuel with
        | 0 => (.error e, 0)
        | fuel' + 1 =>
          let (r, n) := ReplicateClient.runAux c results (attempt + 1) fuel'
          (r, n + 1)
      else (.error e, 0)

/-- `ReplicateClient.run` from the source: attempts start at 0. -/
def ReplicateClient.run {α : Type} (c : ReplicateClient)
    (results : Nat → Except PyException α) : Except PyException α × Nat :=
  ReplicateClient.runAux c results 0 c.max_retries

/-! ### Gemini client retry policy
(`packages/python-inference/src/ai_kit/clients/gemini_client.py`) -/

/-- A Python exception as `_is_retryable_error` observes it: whether it is
an `ssl.SSLError`, and `str(exc)`. -/
structure GeminiException where
  isSSLError : Bool
  message : String
  deriving Repr, DecidableEq

/-- `_is_retryable_error` from the source. -/
def is_retryable_error (exc : GeminiException) : Bool :=
  if exc.isSSLError then true
  else
    let m := (lowerStr exc.message).data
    containsSub m "ssl".data || containsSub m "tls".data
      || containsSub m "bad record mac".data
      || containsSub m "eof occurred in violation of protocol".data
      || containsSub m "connection reset".data

/-- `_retry_delay` from the source: the raw delay plus
`random.uniform(0, min(1.0, delay * 0.1))` jitter, with the underlying
`random()` draw passed in as `rand`. -/
def gemini_retry_delay (attempt : Nat) (base_delay max_delay : ℚ)
    (rand : ℚ) : ℚ :=
  let delay := min max_delay (base_delay * 2 ^ attempt)
  let jitter := pyUniform 0 (min 1 (delay * (1 / 10))) rand
  delay + jitter

/-- The raw (pre-jitter) exponential-backoff delay both clients compute:
`min(max_delay, base_delay * 2 ** attempt)`. -/
def raw_delay (B M : ℚ) (attempt : Nat) : ℚ :=
  min M (B * 2 ^ attempt)

/-- The retry loop inside `GeminiImageClient.generate_images`: raise when
`attempt >= max_retries or not _is_retryable_error(exc)`, else sleep and
retry (the client-handle rebuild has no observable effect here).  Returns
the outcome and the number of sleeps; fuel as in
`ReplicateClient.runAux`. -/
def geminiRunAux {α : Type} (max_retries : Nat)
    (results : Nat → Except GeminiException α) :
    Nat → Nat → Except GeminiException α × Nat
  | attempt, fuel =>
    match results attempt with
    | .ok a => (.ok a, 0)
    | .error e =>
      if max_retries ≤ attempt || !is_retryable_error e then (.error e, 0)
      else
        match fuel with
        | 0 => (.error e, 0)
        | fuel' + 1 =>
          let (r, n) := geminiRunAux max_retries results (attempt + 1) fuel'
          (r, n + 1)

/-- The `generate_images` retry loop from attempt 0. -/
def geminiRun {α : Type} (max_retries : Nat)
    (results : Nat → Except GeminiException α) :
    Except GeminiException α × Nat :=
  geminiRunAux max_retries results 0 max_retries

/-! ### Replicate output coercion (`_coerce_single_file`) -/

/-- A Replicate call result as `_coerce_single_file` discriminates it:
`None`, raw bytes, a readable handle (`hasattr(obj, "read")`, whose `read()`
yields the `content`), a string, a dict, or an unrecognized value such as an
integer. -/
inductive RepOutput
  | none
  | bytes (b : List Nat)
  | handle (content : List Nat)
  | str (s : String)
  | dict (fields : List (String × RepOutput))
  | int (n : Int)

/-- The two exceptions `_coerce_single_file` raises:
`RuntimeError("Replicate returned None output")` and
`TypeError("Unsupported Replicate output type: ...")`. -/
inductive CoerceError
  | noOutput
  | unsupportedType
  deriving Repr, DecidableEq

/-- Python dict lookup on the modelled dict (first matching key). -/
def lookupField : List (String × RepOutput) → String → Option RepOutput
  | [], _ => Option.none
  | (k, v) :: rest, key => if k = key then some v else lookupField rest key

/-- `ReplicateClient._coerce_single_file` from the source; `download` models
`_download_url` (the external `requests.get`). -/
def coerce_single_file (download : String → List Nat) :
    RepOutput → Except CoerceError (List Nat)
  | .none => .error .noOutput
  | .bytes b => .ok b
  | .handle content => .ok content
  | .str s =>
    if startsWithStr s "http" then .ok (download s)
    else .error .unsupportedType
  | .dict fields =>
    match lookupField fields "url" with
    | some (.str url) => .ok (download url)
    | _ => .error .unsupportedType
  | .int _ => .error .unsupportedType

/-! ### Error model and HTTP helpers (`http.py`) -/

/-- Modelled from the spec: `errors.py` is not part of the sources; the spec
describes a closed error-kind enumeration with at least `VALIDATION` and
HTTP-status-derived classes (client error, rate limiting, server error). -/
inductive ErrorKind
  | VALIDATION
  | CLIENT_ERROR
  | RATE_LIMIT
  | SERVER_ERROR
  deriving Repr, DecidableEq

/-- Modelled from the spec: `KitErrorPayload` (missing `errors.py`) carries
`{kind, message, provider, upstreamStatus?}`. -/
structure KitErrorPayload where
  kind : ErrorKind
  message : String
  provider : Option String := Option.none
  upstreamStatus : Option Nat := Option.none
  deriving Repr, DecidableEq

/-- An HTTP response as the helpers observe it: status code, body text, and
the parsed payload that `response.json()` (or the streaming consumption)
would deliver.  A `None` body text is modelled as `""`, which
`(response.text or "")` also produces. -/
structure HttpResponse (α : Type) where
  status_code : Nat
  text : String
  body : α

/-- `request_json` from both `http.py` files.  `classify_status` is the
external error-classification collaborator (missing `errors.py`); the
transport arguments (method, headers, json body, timeout) are consumed by
the external `requests.request` call that produced `response` and do not
affect the error logic. -/
def request_json {α : Type} (classify_status : Nat → ErrorKind) (url : String)
    (response : HttpResponse α) : Except KitErrorPayload α :=
  if 400 ≤ response.status_code then
    let body := pyStrip response.text
    let message :=
      if body = "" then
        "Upstream HTTP " ++ toString response.status_code ++ " for " ++ url
      else body
    .error { kind := classify_status response.status_code, message := message,
             upstreamStatus := some response.status_code }
  else .ok response.body

/-- `request_stream` from both `http.py` files: same error handling, but a
success returns the response itself. -/
def request_stream {α : Type} (classify_status : Nat → ErrorKind)
    (url : String) (response : HttpResponse α) :
    Except KitErrorPayload (HttpResponse α) :=
  if 400 ≤ response.status_code then
    let body := pyStrip response.text
    let message :=
      if body = "" then
        "Upstream HTTP " ++ toString response.status_code ++ " for " ++ url
      else body
    .error { kind := classify_status response.status_code, message := message,
             upstreamStatus := some response.status_code }
  else .ok response

/-- `request_multipart` from `python-inference`'s `http.py`: the multipart
form assembly feeds the external transport call; the error handling and the
`response.json()` result are as in `request_json`. -/
def request_multipart {α : Type} (classify_status : Nat → ErrorKind)
    (url : String) (response : HttpResponse α) : Except KitErrorPayload α :=
  if 400 ≤ response.status_code then
    let body := pyStrip response.text
    let message :=
      if body = "" then
        "Upstream HTTP " ++ toString response.status_code ++ " for " ++ url
      else body
    .error { kind := classify_status response.status_code, message := message,
             upstreamStatus := some response.status_code }
  else .ok response.body

/-! ### Grid splitting (`ReplicateClient.split_grid_image`) -/

/-- A PIL crop box `(left, top, right, bottom)`; the crop has width
`right - left` and height `bottom - top`. -/
structure CropBox where
  left : Int
  top : Int
  right : Int
  bottom : Int
  deriving Repr, DecidableEq

/-- `ReplicateClient.split_grid_image` from the source, abstracted to the
crop geometry (decoding the PNG and re-encoding each crop are external PIL
work; the image contributes its width and height).  Python's `//` is floor
division, `Int.fdiv`. -/
def split_grid_image (w h : Int) (rows cols padding : Int) : List CropBox :=
  let cell_w := (w - padding * (cols - 1)).fdiv cols
  let cell_h := (h - padding * (rows - 1)).fdiv rows
  ((List.range rows.toNat).map (fun r =>
    (List.range cols.toNat).map (fun c =>
      { left := (c : Int) * (cell_w + padding),
        top := (r : Int) * (cell_h + padding),
        right := (c : Int) * (cell_w + padding) + cell_w,
        bottom := (r : Int) * (cell_h + padding) + cell_h }))).flatten

/-! ### Fixture test double (`FixtureAdapter` in `testing.py`) -/

/-- `FixtureEntry` from the source: optional canned slots per operation;
image and mesh outputs are opaque to the properties proved here. -/
structure FixtureEntry (Tool Usage Finish ImgOut MeshOut : Type) where
  generate : Option (GenerateOutput Tool Usage Finish) := Option.none
  stream : Option (List (StreamChunk Tool Usage Finish)) := Option.none
  image : Option ImgOut := Option.none
  mesh : Option MeshOut := Option.none

/-- `FixtureCalls` from the source: the recorded call history per
operation. -/
structure FixtureCalls where
  generate : List RequestInput := []
  stream_generate : List RequestInput := []
  generate_image : List RequestInput := []
  generate_mesh : List RequestInput := []
  deriving Repr, DecidableEq

/-- `FixtureAdapter` state after `__init__`: the fixtures dict is modelled
by its lookup function, `key_fn` is the configured key function (the
constructor defaults it to `fixture_key` and `default_chunk_size` to
24; `models` only feeds `list_models`, which no claim touches). -/
structure FixtureAdapter (Tool Usage Finish ImgOut MeshOut : Type) where
  provider : String
  fixtures : String → Option (FixtureEntry Tool Usage Finish ImgOut MeshOut)
  key_fn : FixtureKeyInput → String := fixture_key
  default_chunk_size : Int := 24
  calls : FixtureCalls := {}

/-- `FixtureAdapter._require_fixture` from the source. -/
def FixtureAdapter.require_fixture {Tool Usage Finish ImgOut MeshOut : Type}
    (ad : FixtureAdapter Tool Usage Finish ImgOut MeshOut)
    (kind : String) (input : RequestInput) :
    Except KitErrorPayload (FixtureEntry Tool Usage Finish ImgOut MeshOut) :=
  let key := ad.key_fn { type := kind, input := input }
  match ad.fixtures key with
  | Option.none =>
    .error { kind := .VALIDATION,
             message := "Fixture not found (key: " ++ key ++ ").",
             provider := some ad.provider }
  | some entry => .ok entry

/-- `FixtureAdapter._missing_fixture_error` from the source. -/
def FixtureAdapter.missing_fixture_error
    {Tool Usage Finish ImgOut MeshOut : Type}
    (ad : FixtureAdapter Tool Usage Finish ImgOut MeshOut)
    (kind : String) (input : RequestInput) : KitErrorPayload :=
  let key := ad.key_fn { type := kind, input := input }
  { kind := .VALIDATION,
    message := "Fixture for " ++ kind ++ " is missing (key: " ++ key ++ ").",
    provider := some ad.provider }

/-- `FixtureAdapter.generate` from the source: record the call, look the
fixture up, return the canned generate output or raise.  The mutation of
`self.calls` is modelled by returning the updated adapter. -/
def FixtureAdapter.generate {Tool Usage Finish ImgOut MeshOut : Type}
    (ad : FixtureAdapter Tool Usage Finish ImgOut MeshOut)
    (input : RequestInput) :
    Except KitErrorPayload (GenerateOutput Tool Usage Finish)
      × FixtureAdapter Tool Usage Finish ImgOut MeshOut :=
  let ad' := { ad with
    calls := { ad.calls with generate := ad.calls.generate ++ [input] } }
  let res :=
    match ad'.require_fixture "generate" input with
    | .error e => .error e
    | .ok entry =>
      match entry.generate with
      | Option.none => .error (ad'.missing_fixture_error "generate" input)
      | some out => .ok out
  (res, ad')

/-- `FixtureAdapter.stream_generate` from the source: an explicit canned
stream wins; otherwise a canned generate output is synthesized into chunks;
otherwise raise. -/
def FixtureAdapter.stream_generate {Tool Usage Finish ImgOut MeshOut : Type}
    (ad : FixtureAdapter Tool Usage Finish ImgOut MeshOut)
    (input : RequestInput) :
    Except KitErrorPayload (List (StreamChunk Tool Usage Finish))
      × FixtureAdapter Tool Usage Finish ImgOut MeshOut :=
  let ad' := { ad with
    calls := { ad.calls with
      stream_generate := ad.calls.stream_generate ++ [input] } }
  let res :=
    match ad'.require_fixture "stream" input with
    | .error e => .error e
    | .ok entry =>
      match entry.stream with
      | some s => .ok s
      | Option.none =>
        match entry.generate with
        | Option.none => .error (ad'.missing_fixture_error "stream" input)
        | some out => .ok (build_stream_chunks out ad'.default_chunk_size)
  (res, ad')

/-- `FixtureAdapter.generate_image` from the source. -/
def FixtureAdapter.generate_image {Tool Usage Finish ImgOut MeshOut : Type}
    (ad : FixtureAdapter Tool Usage Finish ImgOut MeshOut)
    (input : RequestInput) :
    Except KitErrorPayload ImgOut
      × FixtureAdapter Tool Usage Finish ImgOut MeshOut :=
  let ad' := { ad with
    calls := { ad.calls with
      generate_image := ad.calls.generate_image ++ [input] } }
  let res :=
    match ad'.require_fixture "image" input with
    | .error e => .error e
    | .ok entry =>
      match entry.image with
      | Option.none => .error (ad'.missing_fixture_error "image" input)
      | some out => .ok out
  (res, ad')

/-- `FixtureAdapter.generate_mesh` from the source. -/
def FixtureAdapter.generate_mesh {Tool Usage Finish ImgOut MeshOut : Type}
    (ad : FixtureAdapter Tool Usage Finish ImgOut MeshOut)
    (input : RequestInput) :
    Except KitErrorPayload MeshOut
      × FixtureAdapter Tool Usage Finish ImgOut MeshOut :=
  let ad' := { ad with
    calls := { ad.calls with
      generate_mesh := ad.calls.generate_mesh ++ [input] } }
  let res :=
    match ad'.require_fixture "mesh" input with
    | .error e => .error e
    | .ok entry =>
      match entry.mesh with
      | Option.none => .error (ad'.missing_fixture_error "mesh" input)
      | some out => .ok out
  (res, ad')

/-! ### Local Whisper transcriber (`python-local`'s `transcriber.py`) -/

/-- Modelled from the spec: `AudioInput` (missing `types.py`) with optional
`path`, `base64`, `url` and `mediaType` fields. -/
structure AudioInput where
  path : Option String := Option.none
  base64 : Option String := Option.none
  url : Option String := Option.none
  mediaType : Option String := Option.none

/-- Python truthiness of an optional string: `None` and `""` are falsy. -/
def pyTruthy : Option String → Bool
  | Option.none => false
  | some s => s != ""

/-- Python `a or b` on optional strings. -/
def pyOrStr (a b : Option String) : Option String :=
  match a with
  | some s => if s = "" then b else some s
  | Option.none => b

/-- `_suffix_for_media` from the source. -/
def suffix_for_media (media_type : Option String) : String :=
  match media_type with
  | Option.none => ".audio"
  | some mt =>
    if mt = "" then ".audio"
    else
      let normalized := (lowerStr mt).data
      if containsSub normalized "wav".data then ".wav"
      else if containsSub normalized "mpeg".data then ".mp3"
      else if containsSub normalized "mp4".data then ".mp4"
      else if containsSub normalized "webm".data then ".webm"
      else if containsSub normalized "ogg".data then ".ogg"
      else ".audio"

/-- Python `str.partition` at the first occurrence of a one-character
separator: head, whether the separator was found, tail (empty when not
found, as in Python). -/
def partitionChar (sep : Char) : List Char → List Char × Bool × List Char
  | [] => ([], false, [])
  | c :: rest =>
    if c = sep then ([], true, rest)
    else
      let (pre, found, post) := partitionChar sep rest
      (c :: pre, found, post)

/-- Python `str.replace(needle, "")`: delete all (left-to-right,
non-overlapping) occurrences.  Fuel-indexed; invoked with the input
length. -/
def replaceAllAux (needle : List Char) : Nat → List Char → List Char
  | _, [] => []
  | 0, cs => cs
  | fuel + 1, c :: rest =>
    if leadsList needle (c :: rest) && !needle.isEmpty then
      replaceAllAux needle fuel ((c :: rest).drop needle.length)
    else c :: replaceAllAux needle fuel rest

/-- `_decode_base64` from the source; `b64decode` models the external
`base64.b64decode`. -/
def decode_base64 (b64decode : String → List Nat) (raw : String)
    (explicit_type : Option String) : List Nat × String :=
  let payload0 := raw
  let media0 := match explicit_type with
    | some t => t
    | Option.none => ""
  let (payload1, media1) :=
    if startsWithStr raw "data:" then
      let (header, _, post) := partitionChar ',' raw.data
      let media' :=
        if media0 = "" ∧ containsSub header ";".data then
          String.mk (replaceAllAux "data:".data header.length
            (header.takeWhile (· ≠ ';')))
        else media0
      (String.mk post, media')
    else (payload0, media0)
  let media2 := if media1 = "" then "application/octet-stream" else media1
  (b64decode payload1, media2)

/-- `_write_temp_audio` from the source; `mkTemp` models the external
`tempfile.NamedTemporaryFile` (data and suffix in, temp path out). -/
def write_temp_audio (mkTemp : List Nat → String → String)
    (data : List Nat) (media_type : Option String) : String :=
  mkTemp data (suffix_for_media media_type)

/-- `_materialize_audio` from the source: path wins with cleanup `False`;
else base64 (decoded and written to a temp file, cleanup `True`); else url
(fetched — `fetchUrl` models `urlopen` with its `content-type` header —
and written to a temp file, cleanup `True`); else a VALIDATION error. -/
def materialize_audio (b64decode : String → List Nat)
    (mkTemp : List Nat → String → String)
    (fetchUrl : String → List Nat × Option String)
    (audio : AudioInput) : Except KitErrorPayload (String × Bool) :=
  if pyTruthy audio.path then .ok (audio.path.getD "", false)
  else if pyTruthy audio.base64 then
    let (data, media_type) :=
      decode_base64 b64decode (audio.base64.getD "") audio.mediaType
    .ok (write_temp_audio mkTemp data (some media_type), true)
  else if pyTruthy audio.url then
    let (data, ctype) := fetchUrl (audio.url.getD "")
    let media_type := pyOrStr audio.mediaType ctype
    .ok (write_temp_audio mkTemp data media_type, true)
  else
    .error { kind := .VALIDATION,
             message :=
               "Transcribe input requires audio.url, audio.base64, or audio.path",
             provider := some "local" }

/-- The file-handling skeleton of `LocalWhisperAdapter.transcribe`: the
audio is materialized, handed to the external whisper model, and the
`finally` block unlinks the path exactly when the cleanup flag is set
(identically on the success and failure paths of the external call).
Returns the path given to the model and the list of paths unlinked. -/
def transcribe_unlinks (b64decode : String → List Nat)
    (mkTemp : List Nat → String → String)
    (fetchUrl : String → List Nat × Option String)
    (audio : AudioInput) : Except KitErrorPayload (String × List String) :=
  match materialize_audio b64decode mkTemp fetchUrl audio with
  | .error e => .error e
  | .ok (audio_path, cleanup) =>
    .ok (audio_path, if cleanup then [audio_path] else [])

theorem chunkTextAux_flatten (c : Nat) (hc : 0 < c) :
    ∀ (fuel : Nat) (s : List Char), s.length ≤ fuel →
      (chunkTextAux c fuel s).flatten = s := by
  intro fuel
  induction fuel with
  | zero =>
    intro s hs
    have h0 : s = [] := List.length_eq_zero.mp (Nat.le_zero.mp hs)
    subst h0; rfl
  | succ n ih =>
    intro s hs
    cases s with
    | nil => rfl
    | cons a t =>
      have hdrop : ((a :: t).drop c).length ≤ n := by
        simp only [List.length_drop, List.length_cons]
        simp only [List.length_cons] at hs
        omega
      simp only [chunkTextAux, List.flatten_cons]
      rw [ih _ hdrop, List.take_append_drop]

theorem chunkTextAux_length (c : Nat) (hc : 0 < c) :
    ∀ (fuel : Nat) (s : List Char), s.length ≤ fuel →
      (chunkTextAux c fuel s).length = (s.length + c - 1) / c := by
  intro fuel
  induction fuel with
  | zero =>
    intro s hs
    have h0 : s = [] := List.length_eq_zero.mp (Nat.le_zero.mp hs)
    subst h0
    have hz : (0 + c - 1) / c = 0 := Nat.div_eq_of_lt (by omega)
    simpa [chunkTextAux] using hz.symm
  | succ n ih =>
    intro s hs
    cases s with
    | nil =>
      have hz : (0 + c - 1) / c = 0 := Nat.div_eq_of_lt (by omega)
      simpa [chunkTextAux] using hz.symm
    | cons a t =>
      have hdrop : ((a :: t).drop c).length ≤ n := by
        simp only [List.length_drop, List.length_cons]
        simp only [List.length_cons] at hs
        omega
      have hrec := ih _ hdrop
      simp only [chunkTextAux, List.length_cons, hrec, List.length_drop]
      rcases Nat.le_total (t.length + 1) c with hle | hle
      · have h1 : t.length + 1 - c = 0 := by omega
        have h2 : (0 + c - 1) / c = 0 := Nat.div_eq_of_lt (by omega)
        have h3 : (t.length + 1 + c - 1) / c = 1 :=
          Nat.div_eq_of_lt_le (by omega) (by omega)
        rw [h1, h2, h3]
      · have heq : t.length + 1 + c - 1 = ((t.length + 1 - c) + c - 1) + c := by
          omega
        rw [heq, Nat.add_div_right _ hc]

theorem chunk_text_pos (t : String) (C : Int) (hC : 0 < C) :
    chunk_text t C = (chunkTextAux C.toNat t.length t.data).map String.mk := by
  by_cases h : t = ""
  · subst h; rfl
  · simp only [chunk_text, if_neg h, if_neg (by omega : ¬ C ≤ 0)]

theorem chunk_text_length (t : String) (C : Int) (hC : 0 < C) :
    (chunk_text t C).length = (t.length + C.toNat - 1) / C.toNat := by
  have hc : 0 < C.toNat := by omega
  rw [chunk_text_pos t C hC, List.length_map,
    chunkTextAux_length C.toNat hc t.length t.data (le_of_eq rfl)]
  rfl

theorem chunk_text_join (t : String) (C : Int) (hC : 0 < C) :
    String.join (chunk_text t C) = t := by
  have hc : 0 < C.toNat := by omega
  have hflat := chunkTextAux_flatten C.toNat hc t.length t.data (le_of_eq rfl)
  have hcomp : String.data ∘ String.mk = id := funext fun _ => rfl
  rw [chunk_text_pos t C hC, String.join_eq, List.map_map, hcomp, List.map_id,
    hflat]

/-- **C1**: with no explicit canned stream and chunk size `C > 0`,
`build_stream_chunks` yields the delta chunks of `chunk_text` — exactly
`⌈L/C⌉` of them, in left-to-right order, concatenating back to the original
text — followed by one `tool_call` chunk per tool call in order, followed by
exactly one `message_end` chunk carrying the usage and finish reason; with
`C ≤ 0` and non-empty text, a single delta chunk holds the whole text. -/
theorem C1_build_stream_chunks_spec {Tool Usage Finish : Type}
    (output : GenerateOutput Tool Usage Finish) (C : Int) :
    (0 < C →
      build_stream_chunks output C =
          (chunk_text output.text C).map
            (fun part => ({ type := "delta", textDelta := some part } :
              StreamChunk Tool Usage Finish))
        ++ output.toolCalls.map
            (fun call => ({ type := "tool_call", call := some call } :
              StreamChunk Tool Usage Finish))
        ++ [{ type := "message_end", usage := output.usage,
              finishReason := output.finishReason }]
      ∧ (chunk_text output.text C).length
          = (output.text.length + C.toNat - 1) / C.toNat
      ∧ String.join (chunk_text output.text C) = output.text)
    ∧ (C ≤ 0 → output.text ≠ "" →
      build_stream_chunks output C =
          [({ type := "delta", textDelta := some output.text } :
            StreamChunk Tool Usage Finish)]
        ++ output.toolCalls.map
            (fun call => ({ type := "tool_call", call := some call } :
              StreamChunk Tool Usage Finish))
        ++ [{ type := "message_end", usage := output.usage,
              finishReason := output.finishReason }]) := by
  have htc : (if output.toolCalls.isEmpty then []
      else output.toolCalls.map
        (fun call => ({ type := "tool_call", call := some call } :
          StreamChunk Tool Usage Finish)))
      = output.toolCalls.map
          (fun call => ({ type := "tool_call", call := some call } :
            StreamChunk Tool Usage Finish)) := by
    cases output.toolCalls with
    | nil => rfl
    | cons a l => rfl
  constructor
  · intro hC
    refine ⟨?_, chunk_text_length _ _ hC, chunk_text_join _ _ hC⟩
    simp only [build_stream_chunks, htc]
    congr 1
    congr 1
    by_cases ht : output.text = ""
    · rw [if_neg (by simpa using ht)]
      rw [ht]
      rfl
    · rw [if_pos ht]
  · intro hC ht
    simp only [build_stream_chunks, htc]
    congr 1
    congr 1
    rw [if_pos ht]
    simp only [chunk_text, if_neg ht, if_pos hC]
    rfl

/-- Witness for C1 at a concrete output, exercising both the `C = 5 > 0`
branch and the `C = -1 ≤ 0` branch. -/
theorem C1_build_stream_chunks_spec_witness :
    ((0 : Int) < 5 ∧
      (build_stream_chunks
          ({ text := "hello world!", toolCalls := [1, 2], usage := some 7,
             finishReason := some "stop" } : GenerateOutput Nat Nat String) 5 =
          (chunk_text "hello world!" 5).map
            (fun part => ({ type := "delta", textDelta := some part } :
              StreamChunk Nat Nat String))
        ++ [(1 : Nat), 2].map
            (fun call => ({ type := "tool_call", call := some call } :
              StreamChunk Nat Nat String))
        ++ [{ type := "message_end", usage := some 7,
              finishReason := some "stop" }]
      ∧ (chunk_text "hello world!" 5).length
          = ("hello world!".length + (5 : Int).toNat - 1) / (5 : Int).toNat
      ∧ String.join (chunk_text "hello world!" 5) = "hello world!"))
    ∧ ((-1 : Int) ≤ 0 ∧
      build_stream_chunks
          ({ text := "hi", toolCalls := [], usage := none,
             finishReason := none } : GenerateOutput Nat Nat String) (-1) =
          [({ type := "delta", textDelta := some "hi" } :
            StreamChunk Nat Nat String)]
        ++ ([] : List Nat).map
            (fun call => ({ type := "tool_call", call := some call } :
              StreamChunk Nat Nat String))
        ++ [{ type := "message_end", usage := none, finishReason := none }]) :=
  ⟨⟨by decide,
    (C1_build_stream_chunks_spec
      ({ text := "hello world!", toolCalls := [1, 2], usage := some 7,
         finishReason := some "stop" } : GenerateOutput Nat Nat String) 5).1
      (by decide)⟩,
   by decide,

   (C1_build_stream_chunks_spec
      ({ text := "hi", toolCalls := [], usage := none,
         finishReason := none } : GenerateOutput Nat Nat String) (-1)).2
      (by decide) (by decide)⟩

/-- **C3** (code bug): the raw string `r"reset(?:s)? in ~?(\\d+)s"` doubles
the backslash, so the compiled pattern requires a literal backslash followed
by letters `d` and never matches a real `resets in ~Ns` hint: on such a
message the exponential branch is taken, not the claimed
`min(max_delay_s, N+1)`.  Were the pattern to match (a message containing a
literal `\d` run), `float()` on the captured group would raise an uncaught
`ValueError`. -/
theorem C3_reset_hint_never_parsed :
    searchHint "Rate limit exceeded, resets in ~5s".data = none
    ∧ (∀ rand : ℚ, ReplicateClient.retry_delay
        { use_file_output := true, max_retries := 3,
          base_delay_s := 2, max_delay_s := 30 }
        { message := "Rate limit exceeded, resets in ~5s" } 0 rand
        = .ok (2 + (1 / 5) * rand))
    ∧ ReplicateClient.retry_delay
        { use_file_output := true, max_retries := 3,
          base_delay_s := 2, max_delay_s := 30 }
        { message := "Rate limit exceeded, resets in ~5s" } 0 0
        ≠ .ok (min (30 : ℚ) (5 + 1))
    ∧ searchHint "resets in ~\\dds".data = some "\\dd"
    ∧ pyFloat "\\dd".data = none
    ∧ ReplicateClient.retry_delay
        { use_file_output := true, max_retries := 3,
          base_delay_s := 2, max_delay_s := 30 }
        { message := "resets in ~\\dds" } 0 0
        = .error () := by
  have h5 : searchHint "Rate limit exceeded, resets in ~5s".data = none := by
    decide
  have hd : searchHint "resets in ~\\dds".data = some "\\dd" := by decide
  refine ⟨h5, ?_, ?_, hd, by decide, ?_⟩
  · intro rand
    simp [ReplicateClient.retry_delay, h5, pyUniform]
    norm_num
  · simp [ReplicateClient.retry_delay, h5, pyUniform]
    norm_num
  · simp [ReplicateClient.retry_delay, hd, pyFloat, digitsVal, digitVal]

theorem replicateRunAux_exhaust {α : Type} (c : ReplicateClient)
    (results : Nat → Except PyException α) (e : Nat → PyException)
    (herr : ∀ i, results i = .error (e i))
    (hpred : ∀ i, ReplicateClient.retryPred (e i) = true) :
    ∀ fuel attempt, attempt + fuel = c.max_retries →
      ReplicateClient.runAux c results attempt fuel
        = (.error (e c.max_retries), fuel) := by
  intro fuel
  induction fuel with
  | zero =>
    intro attempt h
    have ha : attempt = c.max_retries := by omega
    subst ha
    simp only [ReplicateClient.runAux, herr, ite_self]
  | succ n ih =>
    intro attempt h
    have hgo : c.should_retry (e attempt) attempt = true := by
      simp only [ReplicateClient.should_retry, hpred attempt,
        if_neg (by omega : ¬ c.max_retries ≤ attempt)]
    simp only [ReplicateClient.runAux, herr attempt, hgo, if_true,
      ih (attempt + 1) (by omega)]

theorem geminiRunAux_exhaust {β : Type} (mr : Nat)
    (gresults : Nat → Except GeminiException β) (g : Nat → GeminiException)
    (gherr : ∀ i, gresults i = .error (g i))
    (ghpred : ∀ i, is_retryable_error (g i) = true) :
    ∀ fuel attempt, attempt + fuel = mr →
      geminiRunAux mr gresults attempt fuel = (.error (g mr), fuel) := by
  intro fuel
  induction fuel with
  | zero =>
    intro attempt h
    have ha : attempt = mr := by omega
    subst ha
    simp only [geminiRunAux, gherr, ite_self]
  | succ n ih =>
    intro attempt h
    have hcond : (decide (mr ≤ attempt) || !is_retryable_error (g attempt)) = false := by
      simp [ghpred attempt]
      omega
    simp only [geminiRunAux, gherr attempt, hcond, Bool.false_eq_true, if_false,
      ih (attempt + 1) (by omega)]

/-- **C5**: when every attempt fails with an exception the provider-specific
predicate classifies as retryable, both retry loops sleep exactly once per
attempt below the configured maximum and, at attempt index `max_retries`,
re-raise that attempt's original exception without a further sleep. -/
theorem C5_retry_exhaustion {α β : Type} (c : ReplicateClient) (mr : Nat)
    (results : Nat → Except PyException α)
    (gresults : Nat → Except GeminiException β)
    (e : Nat → PyException) (g : Nat → GeminiException)
    (herr : ∀ i, results i = .error (e i))
    (hpred : ∀ i, ReplicateClient.retryPred (e i) = true)
    (ghert : ∀ i, gresults i = .error (g i))
    (ghpred : ∀ i, is_retryable_error (g i) = true) :
    ReplicateClient.run c results = (.error (e c.max_retries), c.max_retries)
    ∧ geminiRun mr gresults = (.error (g mr), mr) :=
  ⟨replicateRunAux_exhaust c results e herr hpred c.max_retries 0 (by omega),
   geminiRunAux_exhaust mr gresults g ghert ghpred mr 0 (by omega)⟩

/-- Witness for C5: a 429 exception for Replicate (three configured
retries) and an SSL error for Gemini (five), each raised on every attempt;
the loops sleep 3 resp. 5 times and re-raise. -/
theorem C5_retry_exhaustion_witness :
    ReplicateClient.run
        { use_file_output := true, max_retries := 3,
          base_delay_s := 2, max_delay_s := 30 }
        (fun _ => (.error { status := some 429, message := "throttled" } :
          Except PyException Nat))
      = (.error { status := some 429, message := "throttled" }, 3)
    ∧ geminiRun 5
        (fun _ => (.error { isSSLError := true, message := "handshake" } :
          Except GeminiException Nat))
      = (.error { isSSLError := true, message := "handshake" }, 5) := by
  have hp : ReplicateClient.retryPred
      { status := some 429, status_code := none, message := "throttled" } = true := by
    decide
  have hg : is_retryable_error
      { isSSLError := true, message := "handshake" } = true := by
    decide
  exact C5_retry_exhaustion
    { use_file_output := true, max_retries := 3,
      base_delay_s := 2, max_delay_s := 30 } 5
    (fun _ => .error { status := some 429, message := "throttled" })
    (fun _ => .error { isSSLError := true, message := "handshake" })
    (fun _ => { status := some 429, message := "throttled" })
    (fun _ => { isSSLError := true, message := "handshake" })
    (fun _ => rfl) (fun _ => hp) (fun _ => rfl) (fun _ => hg)

/-- **C6**: with no vendor hint, both clients' delay is the raw delay
`min(max_delay, base_delay * 2 ** attempt)` plus the jitter
`random.uniform(0, min(1.0, raw * 0.1))`; with the `random()` draw in
`[0, 1)`, that jitter lies in `[0, min(1.0, raw * 0.1))` whenever the raw
delay is positive (which the constructor's `base_delay_s ≥ 0.1` clamping
ensures in the clients); the raw delay is non-decreasing in the attempt
index (for non-negative base) and bounded by the configured maximum. -/
theorem C6_backoff_formula (c : ReplicateClient) (exc : PyException)
    (B M rand : ℚ) (attempt : Nat) :
    (searchHint exc.message.data = none →
      ReplicateClient.retry_delay c exc attempt rand
        = .ok (raw_delay c.base_delay_s c.max_delay_s attempt
            + pyUniform 0
                (min 1 (raw_delay c.base_delay_s c.max_delay_s attempt * (1 / 10)))
                rand))
    ∧ gemini_retry_delay attempt B M rand
        = raw_delay B M attempt
          + pyUniform 0 (min 1 (raw_delay B M attempt * (1 / 10))) rand
    ∧ (0 ≤ rand → rand < 1 → 0 < raw_delay B M attempt →
        0 ≤ pyUniform 0 (min 1 (raw_delay B M attempt * (1 / 10))) rand
        ∧ pyUniform 0 (min 1 (raw_delay B M attempt * (1 / 10))) rand
            < min 1 (raw_delay B M attempt * (1 / 10)))
    ∧ (0 ≤ B → raw_delay B M attempt ≤ raw_delay B M (attempt + 1))
    ∧ raw_delay B M attempt ≤ M := by
  refine ⟨?_, rfl, ?_, ?_, min_le_left _ _⟩
  · intro h
    simp [ReplicateClient.retry_delay, h, raw_delay]
  · intro h0 h1 hraw
    have hbound : 0 < min 1 (raw_delay B M attempt * (1 / 10)) :=
      lt_min (by norm_num) (mul_pos hraw (by norm_num))
    have hval : pyUniform 0 (min 1 (raw_delay B M attempt * (1 / 10))) rand
        = min 1 (raw_delay B M attempt * (1 / 10)) * rand := by
      simp [pyUniform]
    constructor
    · rw [hval]
      exact mul_nonneg hbound.le h0
    · rw [hval]
      exact mul_lt_of_lt_one_right hbound h1
  · intro hB
    unfold raw_delay
    refine min_le_min le_rfl ?_
    refine mul_le_mul_of_nonneg_left ?_ hB
    exact pow_le_pow_right₀ (by norm_num) (Nat.le_succ _)

/-- Witness for C6 at a hint-free message, attempt 2, base 2, max 30, and a
`random()` draw of 1/2: the raw delay is 8, the jitter bound
`min(1, 8/10) = 4/5`, and the jitter `4/5 · 1/2` lies in `[0, 4/5)`. -/
theorem C6_backoff_formula_witness :
    (searchHint "boom".data = none
      ∧ ReplicateClient.retry_delay
          { use_file_output := true, max_retries := 3,
            base_delay_s := 2, max_delay_s := 30 }
          { message := "boom" } 2 (1/2)
        = .ok (raw_delay 2 30 2
            + pyUniform 0 (min 1 (raw_delay 2 30 2 * (1 / 10))) (1/2)))
    ∧ ((0 : ℚ) ≤ 1/2 ∧ (1/2 : ℚ) < 1 ∧ (0 : ℚ) < raw_delay 2 30 2
      ∧ 0 ≤ pyUniform 0 (min 1 (raw_delay 2 30 2 * (1 / 10))) (1/2)
      ∧ pyUniform 0 (min 1 (raw_delay 2 30 2 * (1 / 10))) (1/2)
          < min 1 (raw_delay 2 30 2 * (1 / 10)))
    ∧ ((0 : ℚ) ≤ 2 ∧ raw_delay 2 30 2 ≤ raw_delay 2 30 3) := by
  have h := C6_backoff_formula
    { use_file_output := true, max_retries := 3,
      base_delay_s := 2, max_delay_s := 30 }
    { message := "boom" } 2 30 (1/2) 2
  have hraw : (0 : ℚ) < raw_delay 2 30 2 := by norm_num [raw_delay]
  have hj := h.2.2.1 (by norm_num) (by norm_num) hraw
  exact ⟨⟨by decide, h.1 (by decide)⟩,
    ⟨by norm_num, by norm_num, hraw, hj.1, hj.2⟩,
    by norm_num, h.2.2.2.1 (by norm_num)⟩

set_option maxRecDepth 8192 in
/-- **C2**: `fixture_key` is determined by the operation type, provider,
model and the JSON-normalized payload (equal canonical serializations give
equal keys), and differing canonical payloads give differing keys on the
tested inputs (same type/provider/model, payload `{"prompt": "hello"}`
versus `{"prompt": "world"}`). -/
theorem C2_fixture_key_spec :
    (∀ a b : FixtureKeyInput,
      a.type = b.type →
      a.input.provider = b.input.provider →
      a.input.model = b.input.model →
      canonicalPayload a.input = canonicalPayload b.input →
      fixture_key a = fixture_key b)
    ∧ fixture_key
        { type := "generate",
          input := { provider := "openai", model := "gpt",
                     payload := [("prompt", .atom (.str "hello"))] } }
      ≠ fixture_key
        { type := "generate",
          input := { provider := "openai", model := "gpt",
                     payload := [("prompt", .atom (.str "world"))] } } := by
  constructor
  · intro a b ht hp hm hpay
    simp only [canonicalPayload] at hpay
    unfold fixture_key
    rw [ht, hp, hm, hpay]
  · decide

set_option maxRecDepth 8192 in
/-- Witness for C2's determinism half: two payloads listing the same fields
in different orders have equal canonical serializations, hence equal
keys. -/
theorem C2_fixture_key_spec_witness :
    canonicalPayload
        { provider := "openai", model := "gpt",
          payload := [("seed", .atom (.num 7)),
                      ("prompt", .atom (.str "hi"))] }
      = canonicalPayload
        { provider := "openai", model := "gpt",
          payload := [("prompt", .atom (.str "hi")),
                      ("seed", .atom (.num 7))] }
    ∧ fixture_key
        { type := "generate",
          input := { provider := "openai", model := "gpt",
                     payload := [("seed", .atom (.num 7)),
                                 ("prompt", .atom (.str "hi"))] } }
      = fixture_key
        { type := "generate",
          input := { provider := "openai", model := "gpt",
                     payload := [("prompt", .atom (.str "hi")),
                                 ("seed", .atom (.num 7))] } } :=
  ⟨by decide,
   C2_fixture_key_spec.1
     { type := "generate",
       input := { provider := "openai", model := "gpt",
                  payload := [("seed", .atom (.num 7)),
                              ("prompt", .atom (.str "hi"))] } }
     { type := "generate",
       input := { provider := "openai", model := "gpt",
                  payload := [("prompt", .atom (.str "hi")),
                              ("seed", .atom (.num 7))] } }
     rfl rfl rfl (by decide)⟩

/-- **C4**: single-value coercion resolves bytes unchanged, readable
handles by reading, `http...` strings and `{"url": str}` mappings by
downloading (the mapping identically to the bare string), `None` to the
distinct no-output error, and anything else (a non-`http` string, a mapping
without a string `url`, an integer) to the unsupported-output-type
error. -/
theorem C4_coerce_resolution (download : String → List Nat)
    (b content : List Nat) (s url : String)
    (fields : List (String × RepOutput)) (n : Int) :
    coerce_single_file download .none = .error .noOutput
    ∧ coerce_single_file download (.bytes b) = .ok b
    ∧ coerce_single_file download (.handle content) = .ok content
    ∧ (startsWithStr s "http" = true →
        coerce_single_file download (.str s) = .ok (download s))
    ∧ (startsWithStr s "http" = false →
        coerce_single_file download (.str s) = .error .unsupportedType)
    ∧ (lookupField fields "url" = some (.str url) →
        coerce_single_file download (.dict fields) = .ok (download url))
    ∧ (lookupField fields "url" = some (.str url) →
        startsWithStr url "http" = true →
        coerce_single_file download (.dict fields)
          = coerce_single_file download (.str url))
    ∧ coerce_single_file download (.int n) = .error .unsupportedType := by
  refine ⟨rfl, rfl, rfl, ?_, ?_, ?_, ?_, rfl⟩
  · intro hs
    simp [coerce_single_file, hs]
  · intro hs
    simp [coerce_single_file, hs]
  · intro hu
    simp [coerce_single_file, hu]
  · intro hu hs
    simp [coerce_single_file, hu, hs]

/-- Witness for C4 with a concrete downloader, an `https` URL, and a
mapping holding an `http` URL. -/
theorem C4_coerce_resolution_witness :
    (startsWithStr "https://a.example/img" "http" = true
      ∧ coerce_single_file (fun _ => [9, 9]) (.str "https://a.example/img")
          = .ok ((fun _ => [9, 9]) "https://a.example/img"))
    ∧ (startsWithStr "ftp://a.example" "http" = false
      ∧ coerce_single_file (fun _ => [9, 9]) (.str "ftp://a.example")
          = .error .unsupportedType)
    ∧ (lookupField [("url", .str "http://b.example")] "url"
          = some (.str "http://b.example")
      ∧ coerce_single_file (fun _ => [9, 9])
          (.dict [("url", .str "http://b.example")])
          = .ok ((fun _ => [9, 9]) "http://b.example")) :=
  ⟨⟨rfl,
    (C4_coerce_resolution (fun _ => [9, 9]) [] [] "https://a.example/img"
      "" [] 0).2.2.2.1 rfl⟩,
   ⟨rfl,
    (C4_coerce_resolution (fun _ => [9, 9]) [] [] "ftp://a.example"
      "" [] 0).2.2.2.2.1 rfl⟩,
   rfl,
   (C4_coerce_resolution (fun _ => [9, 9]) [] [] ""
      "http://b.example" [("url", .str "http://b.example")] 0).2.2.2.2.2.1
      rfl⟩

/-- **C7**: each HTTP helper raises exactly for statuses ≥ 400, with kind
`classify_status(status)`, the status as `upstreamStatus`, and the trimmed
body as message (the generated `Upstream HTTP {status} for {url}` when the
trimmed body is empty); below 400 each returns its success value. -/
theorem C7_http_error_classification {α : Type}
    (classify_status : Nat → ErrorKind) (url : String)
    (response : HttpResponse α) :
    (400 ≤ response.status_code →
      request_json classify_status url response
          = .error { kind := classify_status response.status_code,
                     message := if pyStrip response.text = "" then
                         "Upstream HTTP " ++ toString response.status_code
                           ++ " for " ++ url
                       else pyStrip response.text,
                     upstreamStatus := some response.status_code }
      ∧ request_stream classify_status url response
          = .error { kind := classify_status response.status_code,
                     message := if pyStrip response.text = "" then
                         "Upstream HTTP " ++ toString response.status_code
                           ++ " for " ++ url
                       else pyStrip response.text,
                     upstreamStatus := some response.status_code }
      ∧ request_multipart classify_status url response
          = .error { kind := classify_status response.status_code,
                     message := if pyStrip response.text = "" then
                         "Upstream HTTP " ++ toString response.status_code
                           ++ " for " ++ url
                       else pyStrip response.text,
                     upstreamStatus := some response.status_code })
    ∧ (response.status_code < 400 →
      request_json classify_status url response = .ok response.body
      ∧ request_stream classify_status url response = .ok response
      ∧ request_multipart classify_status url response = .ok response.body) := by
  constructor
  · intro hge
    refine ⟨?_, ?_, ?_⟩ <;>
      simp only [request_json, request_stream, request_multipart,
        if_pos hge]
  · intro hlt
    refine ⟨?_, ?_, ?_⟩ <;>
      simp only [request_json, request_stream, request_multipart,
        if_neg (by omega : ¬ 400 ≤ response.status_code)]

/-- Witness for C7: a 404 with a whitespace-padded body, a 500 with an
empty body (generated message), and a 200 success. -/
theorem C7_http_error_classification_witness :
    (400 ≤ 404
      ∧ request_json (fun _ => ErrorKind.CLIENT_ERROR) "https://u.example"
          ({ status_code := 404, text := "  not found ", body := 0 } :
            HttpResponse Nat)
        = .error { kind := ErrorKind.CLIENT_ERROR, message := "not found",
                   upstreamStatus := some 404 })
    ∧ (400 ≤ 500
      ∧ request_multipart (fun _ => ErrorKind.SERVER_ERROR) "https://u.example"
          ({ status_code := 500, text := "", body := 0 } : HttpResponse Nat)
        = .error { kind := ErrorKind.SERVER_ERROR,
                   message := "Upstream HTTP 500 for https://u.example",
                   upstreamStatus := some 500 })
    ∧ (200 < 400
      ∧ request_json (fun _ => ErrorKind.CLIENT_ERROR) "https://u.example"
          ({ status_code := 200, text := "ok", body := 7 } : HttpResponse Nat)
        = .ok 7) :=
  ⟨⟨by decide,
    by
      have h := (C7_http_error_classification
        (fun _ => ErrorKind.CLIENT_ERROR) "https://u.example"
        ({ status_code := 404, text := "  not found ", body := 0 } :
          HttpResponse Nat)).1 (by decide)
      simpa [pyStrip, isPySpace] using h.1⟩,
   ⟨by decide,
    by
      have h := (C7_http_error_classification
        (fun _ => ErrorKind.SERVER_ERROR) "https://u.example"
        ({ status_code := 500, text := "", body := 0 } :
          HttpResponse Nat)).1 (by decide)
      simpa [pyStrip, isPySpace] using h.2.2⟩,
   by decide,
   ((C7_http_error_classification
      (fun _ => ErrorKind.CLIENT_ERROR) "https://u.example"
      ({ status_code := 200, text := "ok", body := 7 } :
        HttpResponse Nat)).2 (by decide)).1⟩

theorem flatten_uniform_getElem {β : Type} (C : Nat) :
    ∀ (L : List (List β)) (r c : Nat), (∀ l ∈ L, l.length = C) →
      r < L.length → c < C →
      L.flatten[r * C + c]? = L[r]?.bind (fun l => l[c]?) := by
  intro L
  induction L with
  | nil =>
    intro r c _ hr _
    simp at hr
  | cons x rest ih =>
    intro r c hC hr hc
    have hx : x.length = C := hC x (List.mem_cons_self _ _)
    cases r with
    | zero =>
      simp only [List.flatten_cons, Nat.zero_mul, Nat.zero_add]
      rw [List.getElem?_append_left (by omega)]
      simp
    | succ n =>
      have heq : (n + 1) * C + c = C + (n * C + c) := by ring
      simp only [List.flatten_cons]
      rw [List.getElem?_append_right (by rw [hx, heq]; exact Nat.le_add_right _ _)]
      rw [hx, heq, Nat.add_sub_cancel_left]
      rw [ih n c (fun l hl => hC l (List.mem_cons_of_mem _ hl))
        (by simpa using hr) hc]
      simp

/-- **C8**: `split_grid_image` yields `rows × cols` crops in row-major
order; cell sizes come from integer (floor) division; the crop for row `r`
and column `c` sits at `(c*(cell_w+padding), r*(cell_h+padding))` with size
`cell_w × cell_h`; a 300×200 image with 2 rows, 3 columns and no padding
yields six 100×100 crops. -/
theorem C8_split_grid_spec (w h rows cols padding : Int)
    (hrows : 1 ≤ rows) (hcols : 1 ≤ cols) (_hpad : 0 ≤ padding) :
    ((split_grid_image w h rows cols padding).length = (rows * cols).toNat
    ∧ ∀ r c : Nat, r < rows.toNat → c < cols.toNat →
        (split_grid_image w h rows cols padding)[r * cols.toNat + c]?
          = some
            { left := (c : Int) * ((w - padding * (cols - 1)).fdiv cols + padding),
              top := (r : Int) * ((h - padding * (rows - 1)).fdiv rows + padding),
              right := (c : Int) * ((w - padding * (cols - 1)).fdiv cols + padding)
                + (w - padding * (cols - 1)).fdiv cols,
              bottom := (r : Int) * ((h - padding * (rows - 1)).fdiv rows + padding)
                + (h - padding * (rows - 1)).fdiv rows })
    ∧ ((split_grid_image 300 200 2 3 0).length = 6
      ∧ ∀ box ∈ split_grid_image 300 200 2 3 0,
          box.right - box.left = 100 ∧ box.bottom - box.top = 100) := by
  refine ⟨⟨?_, ?_⟩, by decide, by decide⟩
  · simp only [split_grid_image, List.length_flatten, List.map_map,
      Function.comp_def, List.length_map, List.length_range]
    rw [List.map_const', List.length_range, List.sum_replicate, smul_eq_mul]
    have h1 : rows = (rows.toNat : Int) := (Int.toNat_of_nonneg (by omega)).symm
    have h2 : cols = (cols.toNat : Int) := (Int.toNat_of_nonneg (by omega)).symm
    have h3 : rows.toNat * cols.toNat
        = ((rows.toNat : Int) * (cols.toNat : Int)).toNat := by
      rw [← Int.natCast_mul, Int.toNat_natCast]
    rw [h3, ← h1, ← h2]
  · intro r c hr hc
    simp only [split_grid_image]
    rw [flatten_uniform_getElem cols.toNat _ r c ?_ ?_ hc]
    · rw [List.getElem?_map, List.getElem?_range (by simpa using hr)]
      simp only [Option.map_some', Option.some_bind]
      rw [List.getElem?_map, List.getElem?_range hc]
      rfl
    · intro l hl
      simp only [List.mem_map] at hl
      obtain ⟨a, _, rfl⟩ := hl
      simp
    · simpa using hr

/-- Witness for C8: the 300×200, 2×3, padding-0 grid; the crop at row 1,
column 2 sits at (200, 100) with extent 300×200. -/
theorem C8_split_grid_spec_witness :
    ((1 : Int) ≤ 2 ∧ (1 : Int) ≤ 3 ∧ (0 : Int) ≤ 0)
    ∧ (split_grid_image 300 200 2 3 0).length = ((2 : Int) * 3).toNat
    ∧ (split_grid_image 300 200 2 3 0)[1 * (3 : Int).toNat + 2]?
        = some { left := 200, top := 100, right := 300, bottom := 200 } := by
  have h := C8_split_grid_spec 300 200 2 3 0 (by decide) (by decide) (by decide)
  exact ⟨⟨by decide, by decide, by decide⟩, h.1.1,
    by
      have h2 := h.1.2 1 2 (by decide) (by decide)
      simpa using h2⟩

/-- **C9**: every `FixtureAdapter` operation appends its input to exactly
its own call-history list — unconditionally, so also on invocations that
end in a missing-fixture VALIDATION error — and leaves the other three
histories unchanged. -/
theorem C9_call_history {Tool Usage Finish ImgOut MeshOut : Type}
    (ad : FixtureAdapter Tool Usage Finish ImgOut MeshOut)
    (input : RequestInput) :
    ((ad.generate input).2.calls.generate = ad.calls.generate ++ [input]
      ∧ (ad.generate input).2.calls.stream_generate = ad.calls.stream_generate
      ∧ (ad.generate input).2.calls.generate_image = ad.calls.generate_image
      ∧ (ad.generate input).2.calls.generate_mesh = ad.calls.generate_mesh)
    ∧ ((ad.stream_generate input).2.calls.stream_generate
          = ad.calls.stream_generate ++ [input]
      ∧ (ad.stream_generate input).2.calls.generate = ad.calls.generate
      ∧ (ad.stream_generate input).2.calls.generate_image
          = ad.calls.generate_image
      ∧ (ad.stream_generate input).2.calls.generate_mesh
          = ad.calls.generate_mesh)
    ∧ ((ad.generate_image input).2.calls.generate_image
          = ad.calls.generate_image ++ [input]
      ∧ (ad.generate_image input).2.calls.generate = ad.calls.generate
      ∧ (ad.generate_image input).2.calls.stream_generate
          = ad.calls.stream_generate
      ∧ (ad.generate_image input).2.calls.generate_mesh
          = ad.calls.generate_mesh)
    ∧ ((ad.generate_mesh input).2.calls.generate_mesh
          = ad.calls.generate_mesh ++ [input]
      ∧ (ad.generate_mesh input).2.calls.generate = ad.calls.generate
      ∧ (ad.generate_mesh input).2.calls.stream_generate
          = ad.calls.stream_generate
      ∧ (ad.generate_mesh input).2.calls.generate_image
          = ad.calls.generate_image)
    ∧ (ad.fixtures (ad.key_fn { type := "generate", input := input })
          = Option.none →
        (ad.generate input).1
          = .error { kind := .VALIDATION,
                     message := "Fixture not found (key: "
                       ++ ad.key_fn { type := "generate", input := input }
                       ++ ").",
                     provider := some ad.provider }) := by
  refine ⟨⟨rfl, rfl, rfl, rfl⟩, ⟨rfl, rfl, rfl, rfl⟩, ⟨rfl, rfl, rfl, rfl⟩,
    ⟨rfl, rfl, rfl, rfl⟩, ?_⟩
  intro hnone
  simp [FixtureAdapter.generate, FixtureAdapter.require_fixture, hnone]

/-- Witness for C9 at an adapter with no fixtures (the lookup fails with a
VALIDATION error, yet the generate history grows). -/
theorem C9_call_history_witness :
    (FixtureAdapter.generate
        ({ provider := "fake", fixtures := fun _ => Option.none,
           key_fn := fun k => k.type } :
          FixtureAdapter Nat Nat String Nat Nat)
        { provider := "fake", model := "m", payload := [] }).2.calls.generate
      = [{ provider := "fake", model := "m", payload := [] }]
    ∧ (FixtureAdapter.generate
        ({ provider := "fake", fixtures := fun _ => Option.none,
           key_fn := fun k => k.type } :
          FixtureAdapter Nat Nat String Nat Nat)
        { provider := "fake", model := "m", payload := [] }).1
      = .error { kind := .VALIDATION,
                 message := "Fixture not found (key: generate).",
                 provider := some "fake" } := by
  have h := C9_call_history
    ({ provider := "fake", fixtures := fun _ => Option.none,
       key_fn := fun k => k.type } : FixtureAdapter Nat Nat String Nat Nat)
    { provider := "fake", model := "m", payload := [] }
  exact ⟨h.1.1, h.2.2.2.2 rfl⟩

/-- **C10**: audio source resolution is a fixed precedence, not a
uniqueness requirement: a truthy `path` is returned as-is with cleanup
`False` (so `transcribe` unlinks nothing) even when `base64` or `url` are
also set; `base64` is consulted only with no path, and `url` only with
neither, each yielding a temp file with cleanup `True` (which `transcribe`
unlinks); with none of the three, a VALIDATION error. -/
theorem C10_audio_precedence (b64decode : String → List Nat)
    (mkTemp : List Nat → String → String)
    (fetchUrl : String → List Nat × Option String) (audio : AudioInput) :
    (pyTruthy audio.path = true →
      materialize_audio b64decode mkTemp fetchUrl audio
          = .ok (audio.path.getD "", false)
      ∧ transcribe_unlinks b64decode mkTemp fetchUrl audio
          = .ok (audio.path.getD "", []))
    ∧ (pyTruthy audio.path = false → pyTruthy audio.base64 = true →
      materialize_audio b64decode mkTemp fetchUrl audio
          = .ok (write_temp_audio mkTemp
              (decode_base64 b64decode (audio.base64.getD "")
                audio.mediaType).1
              (some (decode_base64 b64decode (audio.base64.getD "")
                audio.mediaType).2), true)
      ∧ transcribe_unlinks b64decode mkTemp fetchUrl audio
          = .ok (write_temp_audio mkTemp
              (decode_base64 b64decode (audio.base64.getD "")
                audio.mediaType).1
              (some (decode_base64 b64decode (audio.base64.getD "")
                audio.mediaType).2),
              [write_temp_audio mkTemp
                (decode_base64 b64decode (audio.base64.getD "")
                  audio.mediaType).1
                (some (decode_base64 b64decode (audio.base64.getD "")
                  audio.mediaType).2)]))
    ∧ (pyTruthy audio.path = false → pyTruthy audio.base64 = false →
        pyTruthy audio.url = true →
      materialize_audio b64decode mkTemp fetchUrl audio
          = .ok (write_temp_audio mkTemp (fetchUrl (audio.url.getD "")).1
              (pyOrStr audio.mediaType (fetchUrl (audio.url.getD "")).2),
              true))
    ∧ (pyTruthy audio.path = false → pyTruthy audio.base64 = false →
        pyTruthy audio.url = false →
      materialize_audio b64decode mkTemp fetchUrl audio
          = .error { kind := .VALIDATION,
                     message := "Transcribe input requires audio.url, audio.base64, or audio.path",
                     provider := some "local" }) := by
  refine ⟨?_, ?_, ?_, ?_⟩
  · intro hp
    constructor
    · simp [materialize_audio, hp]
    · simp [transcribe_unlinks, materialize_audio, hp]
  · intro hp hb
    constructor
    · simp [materialize_audio, hp, hb]
    · simp [transcribe_unlinks, materialize_audio, hp, hb]
  · intro hp hb hu
    simp [materialize_audio, hp, hb, hu]
  · intro hp hb hu
    simp [materialize_audio, hp, hb, hu]

/-- Witness for C10: an input supplying all three sources resolves to the
path with no cleanup; a base64-only input yields a temp file that is
unlinked; an empty input is a VALIDATION error. -/
theorem C10_audio_precedence_witness :
    (pyTruthy (some "/tmp/a.wav") = true
      ∧ materialize_audio (fun _ => [1]) (fun _ suffix => "/t" ++ suffix)
          (fun _ => ([2], some "audio/ogg"))
          { path := some "/tmp/a.wav", base64 := some "QUJD",
            url := some "https://x.example/a" }
        = .ok ("/tmp/a.wav", false)
      ∧ transcribe_unlinks (fun _ => [1]) (fun _ suffix => "/t" ++ suffix)
          (fun _ => ([2], some "audio/ogg"))
          { path := some "/tmp/a.wav", base64 := some "QUJD",
            url := some "https://x.example/a" }
        = .ok ("/tmp/a.wav", []))
    ∧ transcribe_unlinks (fun _ => [1]) (fun _ suffix => "/t" ++ suffix)
        (fun _ => ([2], some "audio/ogg"))
        { base64 := some "QUJD", mediaType := some "audio/wav" }
      = .ok ("/t.wav", ["/t.wav"])
    ∧ materialize_audio (fun _ => [1]) (fun _ suffix => "/t" ++ suffix)
        (fun _ => ([2], some "audio/ogg")) {}
      = .error { kind := .VALIDATION,
                 message := "Transcribe input requires audio.url, audio.base64, or audio.path",
                 provider := some "local" } := by
  have h1 := (C10_audio_precedence (fun _ => [1])
    (fun _ suffix => "/t" ++ suffix) (fun _ => ([2], some "audio/ogg"))
    { path := some "/tmp/a.wav", base64 := some "QUJD",
      url := some "https://x.example/a" }).1 (by decide)
  have h2 := ((C10_audio_precedence (fun _ => [1])
    (fun _ suffix => "/t" ++ suffix) (fun _ => ([2], some "audio/ogg"))
    { base64 := some "QUJD", mediaType := some "audio/wav" }).2.1
    (by decide) (by decide)).2
  have h4 := (C10_audio_precedence (fun _ => [1])
    (fun _ suffix => "/t" ++ suffix) (fun _ => ([2], some "audio/ogg"))
    {}).2.2.2 (by decide) (by decide) (by decide)
  refine ⟨⟨by decide, h1.1, h1.2⟩, ?_, h4⟩
  have hval : write_temp_audio (fun _ suffix => "/t" ++ suffix)
      (decode_base64 (fun _ => [1]) "QUJD" (some "audio/wav")).1
      (some (decode_base64 (fun _ => [1]) "QUJD" (some "audio/wav")).2)
      = "/t.wav" := by
    simp [write_temp_audio, decode_base64, suffix_for_media, startsWithStr,
      leadsList, lowerStr, containsSub]
  simpa [hval] using h2

end AiKit
